import Mathlib

/-!
Verification of the RAG indexing/search subsystem and workflow nodes of the
issue-improvement program. Definitions are shallow embeddings of the Python
sources (`rag_client.py`, `tools.py`, `graph_nodes.py`, `config.py`,
`models.py`); Python floats are modelled as rationals, Python dict payloads
as structures, and the external Qdrant store as a list of stored points.
-/

namespace AiImproveIssue

/-- Payload stored with every chunk point, mirroring the dict written by
`upsert_issue_chunks` and read by `search_similar_issues`. The two body
fields are optional because `search_similar_issues` reads
`payload.get("issue_body_chunk") or payload.get("issue_body", "")`. -/
structure IssuePayload where
  issue_number : Int
  chunk_index : Nat
  issue_title : String
  issue_body_chunk : Option String
  issue_body : Option String
  state : String
  url : String
  labels : List String
  deriving DecidableEq

/-- A point record in the vector store (Qdrant `PointStruct`). -/
structure StoredPoint where
  id : String
  vector : List ℚ
  payload : IssuePayload
  deriving DecidableEq

/-- A scored point as returned by the store's `query_points` response. -/
structure RespPoint where
  payload : IssuePayload
  score : ℚ
  deriving DecidableEq

/-- `models.SimilarIssue` (a pydantic model). -/
structure SimilarIssue where
  issue_number : Int
  issue_title : String
  issue_body : String
  state : String
  url : String
  similarity : ℚ
  deriving DecidableEq

/-- Python runtime errors surfaced by the embedded code. `typeError` models
the `TypeError` raised when a pydantic model is subscripted like a dict. -/
inductive PyError where
  | typeError
  deriving DecidableEq

/-! ## Chunker (`create_issue_chunks`, rag_client.py lines 187-201) -/

/-- Modelled from the spec: the recursive text splitter used by
`create_issue_chunks` is the external `RecursiveCharacterTextSplitter`
library class, whose code is not part of this repository. Following §4.1
of the spec, this models the character-level fallback split with
`chunk_size` 400 and re-applied `overlap` of 50 characters between
consecutive chunks (stride 350); the separator-preference heuristic of the
earlier separators is not modelled, as the spec only guarantees bounded
chunks, non-emptiness and overlap re-application. Structural recursion on
a fuel argument; the fuel passed by `splitChars` always suffices since
each step removes 350 characters. -/
def splitCharsFuel : Nat → List Char → List (List Char)
  | 0, l => [l]
  | fuel + 1, l =>
    if l.length ≤ 400 then [l]
    else l.take 400 :: splitCharsFuel fuel (l.drop 350)

/-- Modelled from the spec: character-level splitting of the full text with
maximum chunk length 400 and overlap 50 (see `splitCharsFuel`). -/
def splitChars (l : List Char) : List (List Char) :=
  splitCharsFuel l.length l

/-- `create_issue_chunks(issue_title, issue_body)`: joins title and body
with a blank line; returns the whole text as a single chunk when it fits
in 400 characters, otherwise splits it (see `splitChars`). -/
def create_issue_chunks (issue_title : String) (issue_body : String) : List String :=
  let full_text := issue_title ++ "\n\n" ++ issue_body
  if full_text.length ≤ 400 then [full_text]
  else (splitChars full_text.data).map (fun cs => String.mk cs)

/-- Concatenation of chunks after removing the 50-character overlap region
at the start of every chunk but the first. -/
def dropOverlapJoin (chunks : List (List Char)) : List Char :=
  match chunks with
  | [] => []
  | c :: rest => c ++ (rest.map (fun piece => piece.drop 50)).flatten

/-- String-level reconstruction of the source text from its chunks. -/
def reconstructChunks (chunks : List String) : String :=
  String.mk (dropOverlapJoin (chunks.map String.data))

lemma splitCharsFuel_drop_join (fuel : Nat) :
    ∀ l : List Char,
      ((splitCharsFuel fuel l).map (fun piece => piece.drop 50)).flatten = l.drop 50 := by
  induction fuel with
  | zero => intro l; simp [splitCharsFuel]
  | succ fuel ih =>
    intro l
    by_cases h : l.length ≤ 400
    · simp [splitCharsFuel, h]
    · simp only [splitCharsFuel, if_neg h, List.map_cons, List.flatten_cons]
      rw [ih (l.drop 350), List.drop_take, List.drop_drop]
      have h350 : (350 : Nat) + 50 = 400 := by norm_num
      have h400 : (400 : Nat) - 50 = 350 := by norm_num
      rw [h350, h400]
      have hdd : l.drop 400 = (l.drop 50).drop 350 := by
        rw [List.drop_drop]
      rw [hdd]
      exact List.take_append_drop 350 (l.drop 50)

lemma splitCharsFuel_reconstruct (fuel : Nat) :
    ∀ l : List Char, dropOverlapJoin (splitCharsFuel fuel l) = l := by
  induction fuel with
  | zero => intro l; simp [splitCharsFuel, dropOverlapJoin]
  | succ fuel _ =>
    intro l
    by_cases h : l.length ≤ 400
    · simp [splitCharsFuel, h, dropOverlapJoin]
    · simp only [splitCharsFuel, if_neg h, dropOverlapJoin]
      rw [splitCharsFuel_drop_join fuel (l.drop 350)]
      rw [List.drop_drop]
      have h450 : (350 : Nat) + 50 = 400 := by norm_num
      rw [h450]
      exact List.take_append_drop 400 l

lemma splitCharsFuel_ne_nil (fuel : Nat) :
    ∀ l : List Char, l ≠ [] → ∀ c ∈ splitCharsFuel fuel l, c ≠ [] := by
  induction fuel with
  | zero =>
    intro l hl c hc
    simp only [splitCharsFuel, List.mem_singleton] at hc
    simpa [hc] using hl
  | succ fuel ih =>
    intro l hl c hc
    by_cases h : l.length ≤ 400
    · simp only [splitCharsFuel, if_pos h, List.mem_singleton] at hc
      simpa [hc] using hl
    · simp only [splitCharsFuel, if_neg h, List.mem_cons] at hc
      push_neg at h
      rcases hc with hc | hc
      · subst hc
        have : (l.take 400).length = 400 := by
          rw [List.length_take]
          omega
        intro hnil
        rw [hnil] at this
        simp at this
      · refine ih (l.drop 350) ?_ c hc
        intro hnil
        have : (l.drop 350).length = l.length - 350 := List.length_drop 350 l
        rw [hnil] at this
        simp at this
        omega

lemma string_data_append (s t : String) : (s ++ t).data = s.data ++ t.data := by
  cases s; cases t; rfl

lemma full_text_data (title body : String) :
    (title ++ "\n\n" ++ body).data =
      title.data ++ ('\n' :: '\n' :: body.data) := by
  rw [string_data_append, string_data_append]
  have h2 : ("\n\n" : String).data = ['\n', '\n'] := rfl
  rw [h2, List.append_assoc]
  rfl

lemma full_text_data_ne_nil (title body : String) :
    (title ++ "\n\n" ++ body).data ≠ [] := by
  rw [full_text_data]
  intro h
  rcases List.append_eq_nil.mp h with ⟨-, h2⟩
  exact List.cons_ne_nil _ _ h2

/-- C5. For every title and body, every chunk returned by
`create_issue_chunks` is a non-empty string, and concatenating all chunks
after removing the 50-character overlap regions between consecutive chunks
reconstructs the source text (title, blank line, body) exactly. -/
theorem create_issue_chunks_nonempty_reconstruct (title body : String) :
    (∀ c ∈ create_issue_chunks title body, c ≠ "") ∧
      reconstructChunks (create_issue_chunks title body) = title ++ "\n\n" ++ body := by
  unfold create_issue_chunks
  by_cases h : (title ++ "\n\n" ++ body).length ≤ 400
  · simp only [if_pos h]
    constructor
    · intro c hc
      simp only [List.mem_singleton] at hc
      subst hc
      intro hempty
      have : (title ++ "\n\n" ++ body).data = [] := by
        have := congrArg String.data hempty
        simpa using this
      exact full_text_data_ne_nil title body this
    · unfold reconstructChunks
      have hd : dropOverlapJoin ([title ++ "\n\n" ++ body].map String.data) =
          (title ++ "\n\n" ++ body).data := by
        simp [dropOverlapJoin]
      rw [hd]
  · simp only [if_neg h]
    constructor
    · intro c hc
      simp only [List.mem_map] at hc
      obtain ⟨cs, hcs, hmk⟩ := hc
      have hne : cs ≠ [] :=
        splitCharsFuel_ne_nil _ _ (full_text_data_ne_nil title body) cs hcs
      subst hmk
      intro hempty
      apply hne
      have := congrArg String.data hempty
      simpa using this
    · unfold reconstructChunks
      rw [List.map_map]
      have hid : (String.data ∘ fun cs : List Char => String.mk cs) = id := rfl
      rw [hid, List.map_id]
      unfold splitChars
      rw [splitCharsFuel_reconstruct]

/-- C5 witness: concrete application of the reconstruction theorem. -/
theorem create_issue_chunks_nonempty_reconstruct_witness :
    (∀ c ∈ create_issue_chunks "Add dark mode" "Please add a dark theme", c ≠ "") ∧
      reconstructChunks (create_issue_chunks "Add dark mode" "Please add a dark theme") =
        "Add dark mode" ++ "\n\n" ++ "Please add a dark theme" :=
  create_issue_chunks_nonempty_reconstruct "Add dark mode" "Please add a dark theme"

/-- C6. For every title and body whose concatenation (title, blank line,
body) has length at most 400, `create_issue_chunks` returns exactly one
chunk equal to that concatenation. -/
theorem create_issue_chunks_single_short (title body : String)
    (h : (title ++ "\n\n" ++ body).length ≤ 400) :
    create_issue_chunks title body = [title ++ "\n\n" ++ body] := by
  unfold create_issue_chunks
  simp only [if_pos h]

/-- C6 witness: a concrete short title and body produce one chunk. -/
theorem create_issue_chunks_single_short_witness :
    create_issue_chunks "Add dark mode" "Please add a dark theme" =
      ["Add dark mode" ++ "\n\n" ++ "Please add a dark theme"] :=
  create_issue_chunks_single_short "Add dark mode" "Please add a dark theme" (by decide)

/-! ## Search (`QdrantSearchClient.search_similar_issues`, rag_client.py
lines 70-115; the structurally identical copy in tools.py lines 64-98 is
covered by the same embedding) -/

/-- The `or` fallback `payload.get("issue_body_chunk") or payload.get("issue_body", "")`. -/
def effectiveBody (p : IssuePayload) : String :=
  let chunk := p.issue_body_chunk.getD ""
  if chunk = "" then p.issue_body.getD "" else chunk

/-- Builds the `SimilarIssue` for a scored point, truncating the body to
500 characters (`issue_body[:500]`). -/
def mkSimilarIssue (r : RespPoint) : SimilarIssue :=
  { issue_number := r.payload.issue_number
    issue_title := r.payload.issue_title
    issue_body := String.mk ((effectiveBody r.payload).data.take 500)
    state := r.payload.state
    url := r.payload.url
    similarity := r.score }

/-- The store's `query_points`: ranks all stored points by similarity score
(descending, stable) and returns the first `limit`. The scoring of a point
against the query vector is external to the program and abstracted as
`scoreOf`. -/
def queryPoints (store : List StoredPoint) (scoreOf : StoredPoint → ℚ)
    (limit : Nat) : List RespPoint :=
  ((store.map (fun p => RespPoint.mk p.payload (scoreOf p))).insertionSort
    (fun a b => b.score ≤ a.score)).take limit

/-- The guard `exclude_issue_number is not None and issue_num == exclude_issue_number`. -/
def excludedCheck (exclude_issue_number : Option Int) (issue_num : Int) : Bool :=
  match exclude_issue_number with
  | some e => issue_num == e
  | none => false

/-- The aggregation loop of `search_similar_issues`. For each returned
point: skip it when excluded; when its issue number is not yet a key of
`issue_map`, store a new `SimilarIssue`; when it is already a key, the
code evaluates `issue_map[issue_num]["similarity"]`, and `SimilarIssue`
is a pydantic model that does not support item access, so a `TypeError`
is raised (the comment above the loop documents the intent of keeping the
maximum-score chunk per issue). -/
def aggregatePoints : List RespPoint → Option Int → List (Int × SimilarIssue) →
    Except PyError (List (Int × SimilarIssue))
  | [], _, issue_map => .ok issue_map
  | r :: rest, exclude_issue_number, issue_map =>
    let issue_num := r.payload.issue_number
    if excludedCheck exclude_issue_number issue_num then
      aggregatePoints rest exclude_issue_number issue_map
    else if issue_map.any (fun e => e.1 == issue_num) then
      .error .typeError
    else
      aggregatePoints rest exclude_issue_number
        (issue_map ++ [(issue_num, mkSimilarIssue r)])

/-- `search_similar_issues(query_vector, limit, exclude_issue_number)`:
requests the top `limit * 5` chunk neighbours, returns `[]` when there are
none, aggregates per issue (see `aggregatePoints`), sorts the aggregated
hits by similarity descending (Python's stable `sorted` with
`reverse=True`) and returns the first `limit`. -/
def search_similar_issues (store : List StoredPoint) (scoreOf : StoredPoint → ℚ)
    (limit : Nat) (exclude_issue_number : Option Int) :
    Except PyError (List SimilarIssue) :=
  let points := queryPoints store scoreOf (limit * 5)
  if points.isEmpty then .ok []
  else
    match aggregatePoints points exclude_issue_number [] with
    | .error e => .error e
    | .ok issue_map =>
      .ok (((issue_map.map Prod.snd).insertionSort
        (fun a b => b.similarity ≤ a.similarity)).take limit)

/-- `RAGConfig` (config.py lines 26-32). -/
structure RAGConfig where
  enabled : Bool
  embedding_dimensions : Nat
  similarity_threshold : ℚ
  top_k : Nat
  deriving DecidableEq

/-- The search call made by `RAGSearchNode.run`: it passes
`limit=settings.rag.top_k` and never reads `similarity_threshold`. -/
def searchWithConfig (cfg : RAGConfig) (store : List StoredPoint)
    (scoreOf : StoredPoint → ℚ) (exclude : Option Int) :
    Except PyError (List SimilarIssue) :=
  search_similar_issues store scoreOf cfg.top_k exclude

/-- C1. Evaluation of the code at the failing input: a corpus whose top
neighbours contain two chunks of the same issue (number 1) with different
scores. The claimed dedup-by-maximum-score does not happen; the code
raises `TypeError` when it evaluates `issue_map[issue_num]["similarity"]`
on the pydantic `SimilarIssue` stored in the map. -/
theorem search_dedup_subscript_raises :
    search_similar_issues
      [⟨"a", [1], ⟨1, 0, "T", some "chunk one", none, "open", "u", []⟩⟩,
       ⟨"b", [1], ⟨1, 1, "T", some "chunk two", none, "open", "u", []⟩⟩]
      (fun p => if p.id = "a" then 2 else 1) 3 none = .error .typeError := by
  rfl

lemma aggregatePoints_ok_excluded (x : Int) :
    ∀ (pts : List RespPoint) (m₀ m : List (Int × SimilarIssue)),
      aggregatePoints pts (some x) m₀ = .ok m →
      (∀ e ∈ m₀, e.2.issue_number ≠ x) →
      ∀ e ∈ m, e.2.issue_number ≠ x := by
  intro pts
  induction pts with
  | nil =>
    intro m₀ m h hm₀
    simp only [aggregatePoints, Except.ok.injEq] at h
    subst h
    exact hm₀
  | cons r rest ih =>
    intro m₀ m h hm₀
    have hstep : aggregatePoints (r :: rest) (some x) m₀ =
        if excludedCheck (some x) r.payload.issue_number then
          aggregatePoints rest (some x) m₀
        else if m₀.any (fun e => e.1 == r.payload.issue_number) then
          .error .typeError
        else
          aggregatePoints rest (some x)
            (m₀ ++ [(r.payload.issue_number, mkSimilarIssue r)]) := rfl
    rw [hstep] at h
    split_ifs at h with h1 h2
    · exact ih m₀ m h hm₀
    · refine ih _ m h ?_
      intro e he
      rcases List.mem_append.mp he with hold | hnew
      · exact hm₀ e hold
      · have : e = (r.payload.issue_number, mkSimilarIssue r) := by
          simpa using hnew
        subst this
        have : (r.payload.issue_number == x) = false := by
          simpa [excludedCheck] using h1
        simpa [mkSimilarIssue] using beq_eq_false_iff_ne.mp this

/-- C4. When exclusion of issue `x` is requested, a successful search never
returns a hit whose issue number equals `x`, for any corpus (including
corpora that contain chunks of `x`). -/
theorem search_exclusion_holds (store : List StoredPoint)
    (scoreOf : StoredPoint → ℚ) (limit : Nat) (x : Int)
    (hits : List SimilarIssue)
    (h : search_similar_issues store scoreOf limit (some x) = .ok hits) :
    ∀ hit ∈ hits, hit.issue_number ≠ x := by
  have hsearch : search_similar_issues store scoreOf limit (some x) =
      (if (queryPoints store scoreOf (limit * 5)).isEmpty then .ok [] else
        match aggregatePoints (queryPoints store scoreOf (limit * 5)) (some x) [] with
        | .error e => .error e
        | .ok issue_map =>
          .ok (((issue_map.map Prod.snd).insertionSort
            (fun a b => b.similarity ≤ a.similarity)).take limit)) := rfl
  rw [hsearch] at h
  by_cases hempty : (queryPoints store scoreOf (limit * 5)).isEmpty
  · rw [if_pos hempty] at h
    have : hits = [] := by simpa using h.symm
    subst this
    intro hit hh
    exact absurd hh (List.not_mem_nil hit)
  · rw [if_neg hempty] at h
    cases hagg : aggregatePoints (queryPoints store scoreOf (limit * 5)) (some x) [] with
    | error e =>
      rw [hagg] at h
      exact absurd h (by simp)
    | ok issue_map =>
      rw [hagg] at h
      have hhits : hits = ((issue_map.map Prod.snd).insertionSort
          (fun a b => b.similarity ≤ a.similarity)).take limit := by
        simpa using h.symm
      subst hhits
      intro hit hh
      have h1 : hit ∈ (issue_map.map Prod.snd).insertionSort
          (fun a b => b.similarity ≤ a.similarity) :=
        List.take_subset limit _ hh
      have h2 : hit ∈ issue_map.map Prod.snd :=
        (List.mem_insertionSort _).mp h1
      obtain ⟨e, he, hesnd⟩ := List.mem_map.mp h2
      have := aggregatePoints_ok_excluded x _ [] issue_map hagg (by simp) e he
      rw [hesnd] at this
      exact this

/-- C4 witness: a two-chunk corpus containing excluded issue 9 and issue 3;
the search succeeds and the exclusion property holds for its hits. -/
theorem search_exclusion_holds_witness :
    search_similar_issues
      [⟨"a", [1], ⟨9, 0, "T9", some "body nine", none, "open", "u9", []⟩⟩,
       ⟨"b", [1], ⟨3, 0, "T3", some "body three", none, "open", "u3", []⟩⟩]
      (fun p => if p.id = "a" then 2 else 1) 1 (some 9) =
      .ok [⟨3, "T3", "body three", "open", "u3", 1⟩] ∧
    ∀ hit ∈ [(⟨3, "T3", "body three", "open", "u3", 1⟩ : SimilarIssue)],
      hit.issue_number ≠ 9 :=
  ⟨by rfl,
   search_exclusion_holds
     [⟨"a", [1], ⟨9, 0, "T9", some "body nine", none, "open", "u9", []⟩⟩,
      ⟨"b", [1], ⟨3, 0, "T3", some "body three", none, "open", "u3", []⟩⟩]
     (fun p => if p.id = "a" then 2 else 1) 1 9
     [⟨3, "T3", "body three", "open", "u3", 1⟩] (by rfl)⟩

/-- C10. The configured `similarity_threshold` is never consulted by
search: two runs whose configurations agree on everything except
`similarity_threshold` produce identical results. -/
theorem search_ignores_similarity_threshold
    (cfg₁ cfg₂ : RAGConfig) (store : List StoredPoint)
    (scoreOf : StoredPoint → ℚ) (exclude : Option Int)
    (he : cfg₁.enabled = cfg₂.enabled)
    (hd : cfg₁.embedding_dimensions = cfg₂.embedding_dimensions)
    (hk : cfg₁.top_k = cfg₂.top_k) :
    searchWithConfig cfg₁ store scoreOf exclude =
      searchWithConfig cfg₂ store scoreOf exclude := by
  unfold searchWithConfig
  rw [hk]

/-- C10 witness: two configurations differing only in the threshold give
identical results, and a hit whose similarity 1 lies below the first
configuration's threshold 99 is returned. -/
theorem search_ignores_similarity_threshold_witness :
    searchWithConfig ⟨true, 256, 99, 3⟩
        [⟨"a", [1], ⟨4, 0, "T", some "body", none, "open", "u", []⟩⟩]
        (fun _ => 1) none =
      searchWithConfig ⟨true, 256, 0, 3⟩
        [⟨"a", [1], ⟨4, 0, "T", some "body", none, "open", "u", []⟩⟩]
        (fun _ => 1) none ∧
    searchWithConfig ⟨true, 256, 99, 3⟩
        [⟨"a", [1], ⟨4, 0, "T", some "body", none, "open", "u", []⟩⟩]
        (fun _ => 1) none =
      .ok [⟨4, "T", "body", "open", "u", 1⟩] :=
  ⟨search_ignores_similarity_threshold ⟨true, 256, 99, 3⟩ ⟨true, 256, 0, 3⟩
      [⟨"a", [1], ⟨4, 0, "T", some "body", none, "open", "u", []⟩⟩]
      (fun _ => 1) none rfl rfl rfl,
   by rfl⟩

/-! ## Indexing (`upsert_issue_chunks`, rag_client.py lines 117-184; the
structurally identical copy in tools.py lines 100-157 is covered by the
same embedding) -/

/-- One page of the paginated `scroll` loop: each call returns up to 256
points matching the `issue_number` filter plus the next offset; the loop
collects the ids and stops on an empty page or when the store reports no
further offset. The fuel argument only makes the recursion structural;
`scrollCollectIds` always passes enough fuel, since every iteration
consumes a non-empty page of at most 256 points. -/
def scrollLoop : Nat → List StoredPoint → List String → Nat → List String
  | 0, _, acc, _ => acc
  | fuel + 1, filtered, acc, off =>
    let page := (filtered.drop off).take 256
    if page.isEmpty then acc
    else
      let acc2 := acc ++ page.map (fun p => p.id)
      if filtered.length ≤ off + 256 then acc2
      else scrollLoop fuel filtered acc2 (off + 256)

/-- The id-collection phase of `upsert_issue_chunks`: enumerate by
paginated scroll the ids of all stored points whose payload
`issue_number` matches. -/
def scrollCollectIds (store : List StoredPoint) (issue_number : Int) : List String :=
  let filtered := store.filter (fun p => p.payload.issue_number == issue_number)
  scrollLoop (filtered.length + 1) filtered [] 0

/-- Payload written for chunk `ie.1` with text `ie.2.1` (the dict literal
in the insert loop of `upsert_issue_chunks`). -/
def chunkPayload (issue_number : Int) (title state url : String)
    (labels : List String) (ie : Nat × (String × List ℚ)) : IssuePayload :=
  { issue_number := issue_number
    chunk_index := ie.1
    issue_title := title
    issue_body_chunk := some ie.2.1
    issue_body := none
    state := state
    url := url
    labels := labels }

/-- The new points built by the insert loop: one point per
`enumerate(zip(chunks, vectors))` entry, each with a fresh identifier
(`uuid.uuid4()`, abstracted as `freshId`). -/
def freshChunkPoints (issue_number : Int) (chunks : List String)
    (vectors : List (List ℚ)) (title state url : String) (labels : List String)
    (freshId : Nat → String) : List StoredPoint :=
  (chunks.zip vectors).enum.map (fun ie =>
    { id := freshId ie.1
      vector := ie.2.2
      payload := chunkPayload issue_number title state url labels ie })

/-- `upsert_issue_chunks`: collect the ids of all existing points of the
document by paginated scroll, delete them in one batched call when any
were found, then insert the new chunk points. -/
def upsert_issue_chunks (store : List StoredPoint) (issue_number : Int)
    (chunks : List String) (vectors : List (List ℚ))
    (title state url : String) (labels : List String)
    (freshId : Nat → String) : List StoredPoint :=
  let ids_to_delete := scrollCollectIds store issue_number
  let store₁ := if ids_to_delete.isEmpty then store
    else store.filter (fun p => !(ids_to_delete.contains p.id))
  store₁ ++ freshChunkPoints issue_number chunks vectors title state url labels freshId

/-- The payloads of the chunk records stored for one document. -/
def docPayloads (store : List StoredPoint) (issue_number : Int) : List IssuePayload :=
  (store.filter (fun p => p.payload.issue_number == issue_number)).map
    (fun p => p.payload)

/-- The chunk indexes of the records stored for one document. -/
def docChunkIndexes (store : List StoredPoint) (issue_number : Int) : List Nat :=
  (store.filter (fun p => p.payload.issue_number == issue_number)).map
    (fun p => p.payload.chunk_index)

lemma scrollLoop_eq (fuel : Nat) :
    ∀ (filtered : List StoredPoint) (acc : List String) (off : Nat),
      filtered.length ≤ off + 256 * fuel + 256 →
      scrollLoop (fuel + 1) filtered acc off =
        acc ++ (filtered.drop off).map (fun p => p.id) := by
  induction fuel with
  | zero =>
    intro filtered acc off hlen
    simp only [scrollLoop]
    by_cases hpage : ((filtered.drop off).take 256).isEmpty
    · rw [if_pos hpage]
      have hnil : filtered.drop off = [] := by
        rcases List.take_eq_nil_iff.mp (List.isEmpty_iff.mp hpage) with h | h
        · exact absurd h (by norm_num)
        · exact h
      rw [hnil]
      simp
    · rw [if_neg hpage]
      have hle : filtered.length ≤ off + 256 := by omega
      rw [if_pos hle]
      have htake : (filtered.drop off).take 256 = filtered.drop off := by
        apply List.take_of_length_le
        rw [List.length_drop]
        omega
      rw [htake]
  | succ fuel ih =>
    intro filtered acc off hlen
    have hstep : scrollLoop (fuel + 1 + 1) filtered acc off =
        (if ((filtered.drop off).take 256).isEmpty then acc
         else if filtered.length ≤ off + 256 then
           acc ++ ((filtered.drop off).take 256).map (fun p => p.id)
         else scrollLoop (fuel + 1) filtered
           (acc ++ ((filtered.drop off).take 256).map (fun p => p.id))
           (off + 256)) := rfl
    rw [hstep]
    by_cases hpage : ((filtered.drop off).take 256).isEmpty
    · rw [if_pos hpage]
      have hnil : filtered.drop off = [] := by
        rcases List.take_eq_nil_iff.mp (List.isEmpty_iff.mp hpage) with h | h
        · exact absurd h (by norm_num)
        · exact h
      rw [hnil]
      simp
    · rw [if_neg hpage]
      by_cases hle : filtered.length ≤ off + 256
      · rw [if_pos hle]
        have htake : (filtered.drop off).take 256 = filtered.drop off := by
          apply List.take_of_length_le
          rw [List.length_drop]
          omega
        rw [htake]
      · rw [if_neg hle]
        rw [ih filtered (acc ++ ((filtered.drop off).take 256).map (fun p => p.id))
          (off + 256) (by omega)]
        rw [List.append_assoc, ← List.map_append]
        have hdd : (filtered.drop off).drop 256 = filtered.drop (off + 256) := by
          rw [List.drop_drop]
        rw [← hdd, List.take_append_drop]

lemma scrollCollectIds_eq (store : List StoredPoint) (n : Int) :
    scrollCollectIds store n =
      (store.filter (fun p => p.payload.issue_number == n)).map (fun p => p.id) := by
  unfold scrollCollectIds
  rw [scrollLoop_eq _ _ _ _ (by omega)]
  simp

lemma upsert_docFilter (store : List StoredPoint) (n : Int)
    (chunks : List String) (vectors : List (List ℚ)) (t s u : String)
    (l : List String) (f : Nat → String) :
    (upsert_issue_chunks store n chunks vectors t s u l f).filter
        (fun p => p.payload.issue_number == n) =
      freshChunkPoints n chunks vectors t s u l f := by
  unfold upsert_issue_chunks
  rw [List.filter_append]
  have hfresh : (freshChunkPoints n chunks vectors t s u l f).filter
      (fun p => p.payload.issue_number == n) =
      freshChunkPoints n chunks vectors t s u l f := by
    rw [List.filter_eq_self]
    intro p hp
    obtain ⟨ie, -, hie⟩ := List.mem_map.mp hp
    subst hie
    simp [chunkPayload]
  have hstore : (if (scrollCollectIds store n).isEmpty then store
      else store.filter (fun p => !((scrollCollectIds store n).contains p.id))).filter
      (fun p => p.payload.issue_number == n) = [] := by
    by_cases hids : (scrollCollectIds store n).isEmpty
    · rw [if_pos hids]
      have : ((store.filter (fun p => p.payload.issue_number == n)).map
          (fun p => p.id)) = [] := by
        rw [← scrollCollectIds_eq]
        exact List.isEmpty_iff.mp hids
      exact List.map_eq_nil.mp this
    · rw [if_neg hids]
      rw [List.filter_eq_nil_iff]
      intro p hp
      rcases List.mem_filter.mp hp with ⟨hpst, hpkeep⟩
      intro hpmatch
      have hmem : p.id ∈ scrollCollectIds store n := by
        rw [scrollCollectIds_eq]
        exact List.mem_map.mpr ⟨p, List.mem_filter.mpr ⟨hpst, hpmatch⟩, rfl⟩
      have : (scrollCollectIds store n).contains p.id = true :=
        List.elem_iff.mpr hmem
      rw [this] at hpkeep
      simp at hpkeep
  rw [hstore, hfresh, List.nil_append]

lemma upsert_docChunkIndexes (store : List StoredPoint) (n : Int)
    (chunks : List String) (vectors : List (List ℚ)) (t s u : String)
    (l : List String) (f : Nat → String) :
    docChunkIndexes (upsert_issue_chunks store n chunks vectors t s u l f) n =
      List.range (chunks.zip vectors).length := by
  unfold docChunkIndexes
  rw [upsert_docFilter]
  unfold freshChunkPoints
  rw [List.map_map]
  have hc : ((fun p : StoredPoint => p.payload.chunk_index) ∘
      (fun ie : Nat × (String × List ℚ) =>
        ({ id := f ie.1, vector := ie.2.2,
           payload := chunkPayload n t s u l ie } : StoredPoint))) = Prod.fst := rfl
  rw [hc, List.enum_map_fst]

/-- C2. Re-indexing a document with unchanged chunks and vectors is
idempotent: the chunk records stored for that document after indexing
twice are exactly those after indexing once (same payload list, same
number), with no duplicate records — all existing points of the document
are enumerated by paginated scroll (`scrollCollectIds`) and deleted
before the new chunks are inserted. -/
theorem upsert_reindex_idempotent (store : List StoredPoint) (n : Int)
    (chunks : List String) (vectors : List (List ℚ)) (t s u : String)
    (l : List String) (f₁ f₂ f₃ : Nat → String) :
    docPayloads (upsert_issue_chunks
        (upsert_issue_chunks store n chunks vectors t s u l f₁)
        n chunks vectors t s u l f₂) n =
      docPayloads (upsert_issue_chunks store n chunks vectors t s u l f₃) n ∧
    (docPayloads (upsert_issue_chunks
        (upsert_issue_chunks store n chunks vectors t s u l f₁)
        n chunks vectors t s u l f₂) n).length =
      (docPayloads (upsert_issue_chunks store n chunks vectors t s u l f₃) n).length ∧
    (docPayloads (upsert_issue_chunks
        (upsert_issue_chunks store n chunks vectors t s u l f₁)
        n chunks vectors t s u l f₂) n).Nodup := by
  have key : ∀ (st : List StoredPoint) (f : Nat → String),
      docPayloads (upsert_issue_chunks st n chunks vectors t s u l f) n =
        (chunks.zip vectors).enum.map (chunkPayload n t s u l) := by
    intro st f
    unfold docPayloads
    rw [upsert_docFilter]
    unfold freshChunkPoints
    rw [List.map_map]
    rfl
  refine ⟨?_, ?_, ?_⟩
  · rw [key, key]
  · rw [key, key]
  · rw [key]
    apply List.Nodup.of_map (fun p : IssuePayload => p.chunk_index)
    rw [List.map_map]
    have hc : ((fun p : IssuePayload => p.chunk_index) ∘ chunkPayload n t s u l) =
        Prod.fst := rfl
    rw [hc, List.enum_map_fst]
    exact List.nodup_range _

/-- The port calls that can fail during an index operation, in the order
they occur in `IndexCurrentIssueNode.run` / `upsert_issue_chunks`:
batch embedding, the scroll enumeration, the batched delete, and the
insert (`client.upsert`). -/
inductive PortCall where
  | embedBatch
  | scroll
  | delete
  | insert
  deriving DecidableEq

/-- The index operation with an injected failure: `failAt = some c` makes
the first port call of kind `c` raise. A failing call propagates its error
(nothing is caught) and leaves the store as it was at that point: `scroll`
and `embedBatch` have not modified the store, the batched `delete` call is
atomic (spec §5), and a failing `insert` leaves the store after the
delete. `failAt = none` is the successful run, `upsert_issue_chunks`. The
delete call is only made when ids were found (`if ids_to_delete:`). -/
def indexIssueFal (store : List StoredPoint) (issue_number : Int)
    (chunks : List String) (vectors : List (List ℚ))
    (title state url : String) (labels : List String)
    (freshId : Nat → String) (failAt : Option PortCall) :
    Except PortCall Unit × List StoredPoint :=
  if failAt = some PortCall.embedBatch then (.error .embedBatch, store)
  else if failAt = some PortCall.scroll then (.error .scroll, store)
  else
    let ids_to_delete := scrollCollectIds store issue_number
    if failAt = some PortCall.delete ∧ ids_to_delete.isEmpty = false then
      (.error .delete, store)
    else
      let store₁ := if ids_to_delete.isEmpty then store
        else store.filter (fun p => !(ids_to_delete.contains p.id))
      if failAt = some PortCall.insert then (.error .insert, store₁)
      else (.ok (),
        upsert_issue_chunks store issue_number chunks vectors title state url
          labels freshId)

lemma docChunkIndexes_filter_nodup (store : List StoredPoint) (n : Int)
    (q : StoredPoint → Bool) (hnd : (docChunkIndexes store n).Nodup) :
    (docChunkIndexes (store.filter q) n).Nodup := by
  unfold docChunkIndexes at hnd ⊢
  refine List.Nodup.sublist ?_ hnd
  exact List.Sublist.map _ (List.Sublist.filter _ (List.filter_sublist store))

/-- C3 (amended). Any injected port-call failure aborts the index
operation and surfaces that call's error (the delete call only runs when
existing ids were found), and the operation never creates duplicate chunk
records for the document; however — contrary to the original claim — a
failure of the insert call after the delete has succeeded leaves the
document with zero chunk records (see the counterexample). -/
theorem index_failure_aborts_no_duplicates (store : List StoredPoint) (n : Int)
    (chunks : List String) (vectors : List (List ℚ)) (t s u : String)
    (l : List String) (f : Nat → String) (failAt : Option PortCall) :
    ((indexIssueFal store n chunks vectors t s u l f failAt).1 = .ok () ↔
      failAt = none ∨
        (failAt = some PortCall.delete ∧ scrollCollectIds store n = [])) ∧
    (∀ c, failAt = some c →
      (c = PortCall.delete → scrollCollectIds store n ≠ []) →
      (indexIssueFal store n chunks vectors t s u l f failAt).1 = .error c) ∧
    ((docChunkIndexes store n).Nodup →
      (docChunkIndexes (indexIssueFal store n chunks vectors t s u l f failAt).2 n).Nodup) := by
  cases failAt with
  | none =>
    have h2 : indexIssueFal store n chunks vectors t s u l f none =
        (.ok (), upsert_issue_chunks store n chunks vectors t s u l f) := rfl
    refine ⟨?_, ?_, ?_⟩
    · rw [h2]
      simp
    · intro c hc
      exact absurd hc (by simp)
    · intro hnd
      rw [h2, upsert_docChunkIndexes]
      exact List.nodup_range _
  | some c =>
    cases c with
    | embedBatch =>
      have h2 : indexIssueFal store n chunks vectors t s u l f
          (some PortCall.embedBatch) = (.error .embedBatch, store) := rfl
      refine ⟨?_, ?_, ?_⟩
      · rw [h2]
        simp
      · intro c' hc' hdel
        have : c' = PortCall.embedBatch := by
          simpa using hc'.symm
        subst this
        rw [h2]
      · intro hnd
        rw [h2]
        exact hnd
    | scroll =>
      have h2 : indexIssueFal store n chunks vectors t s u l f
          (some PortCall.scroll) = (.error .scroll, store) := rfl
      refine ⟨?_, ?_, ?_⟩
      · rw [h2]
        simp
      · intro c' hc' hdel
        have : c' = PortCall.scroll := by
          simpa using hc'.symm
        subst this
        rw [h2]
      · intro hnd
        rw [h2]
        exact hnd
    | delete =>
      by_cases hids : scrollCollectIds store n = []
      · have hie : (scrollCollectIds store n).isEmpty = true :=
          List.isEmpty_iff.mpr hids
        have h2 : indexIssueFal store n chunks vectors t s u l f
            (some PortCall.delete) =
            (.ok (), upsert_issue_chunks store n chunks vectors t s u l f) := by
          simp [indexIssueFal, hie]
        refine ⟨?_, ?_, ?_⟩
        · rw [h2]
          simp [hids]
        · intro c' hc' hdel
          have : c' = PortCall.delete := by
            simpa using hc'.symm
          subst this
          exact absurd hids (hdel rfl)
        · intro hnd
          rw [h2, upsert_docChunkIndexes]
          exact List.nodup_range _
      · have hie : (scrollCollectIds store n).isEmpty = false := by
          cases hb : (scrollCollectIds store n).isEmpty with
          | false => rfl
          | true => exact absurd (List.isEmpty_iff.mp hb) hids
        have h2 : indexIssueFal store n chunks vectors t s u l f
            (some PortCall.delete) = (.error .delete, store) := by
          simp [indexIssueFal, hie]
        refine ⟨?_, ?_, ?_⟩
        · rw [h2]
          simp [hids]
        · intro c' hc' hdel
          have : c' = PortCall.delete := by
            simpa using hc'.symm
          subst this
          rw [h2]
        · intro hnd
          rw [h2]
          exact hnd
    | insert =>
      have h2 : indexIssueFal store n chunks vectors t s u l f
          (some PortCall.insert) =
          (.error .insert,
            if (scrollCollectIds store n).isEmpty then store
            else store.filter
              (fun p => !((scrollCollectIds store n).contains p.id))) := rfl
      refine ⟨?_, ?_, ?_⟩
      · rw [h2]
        simp
      · intro c' hc' hdel
        have : c' = PortCall.insert := by
          simpa using hc'.symm
        subst this
        rw [h2]
      · intro hnd
        rw [h2]
        by_cases hie : (scrollCollectIds store n).isEmpty
        · simpa [hie] using hnd
        · simp only [hie, if_neg, Bool.false_eq_true, if_false]
          exact docChunkIndexes_filter_nodup store n _ hnd

/-- C3 counterexample: a store holding one chunk of issue 5 is re-indexed
and the insert call fails; the error is surfaced, but the store is left
with zero chunk records for issue 5 although it had one before — refuting
the original claim that no failure point leaves the document with zero
chunks. -/
theorem index_insert_failure_zero_chunks_cex :
    (indexIssueFal [⟨"old", [1], ⟨5, 0, "T", some "c", none, "open", "u", []⟩⟩]
        5 ["c"] [[1]] "T" "open" "u" [] (fun _ => "fresh")
        (some PortCall.insert)).1 = .error .insert ∧
    docPayloads (indexIssueFal [⟨"old", [1], ⟨5, 0, "T", some "c", none, "open", "u", []⟩⟩]
        5 ["c"] [[1]] "T" "open" "u" [] (fun _ => "fresh")
        (some PortCall.insert)).2 5 = [] ∧
    docPayloads [⟨"old", [1], ⟨5, 0, "T", some "c", none, "open", "u", []⟩⟩] 5 ≠ [] := by
  refine ⟨rfl, rfl, ?_⟩
  decide

/-- C3 witness: the amended theorem applied at a concrete store and a
successful run, with its hypotheses discharged. -/
theorem index_failure_aborts_no_duplicates_witness :
    (indexIssueFal [⟨"old", [1], ⟨5, 0, "T", some "c", none, "open", "u", []⟩⟩]
        5 ["c"] [[1]] "T" "open" "u" [] (fun _ => "fresh") none).1 = .ok () ∧
    (docChunkIndexes (indexIssueFal
        [⟨"old", [1], ⟨5, 0, "T", some "c", none, "open", "u", []⟩⟩]
        5 ["c"] [[1]] "T" "open" "u" [] (fun _ => "fresh") none).2 5).Nodup :=
  ⟨((index_failure_aborts_no_duplicates
      [⟨"old", [1], ⟨5, 0, "T", some "c", none, "open", "u", []⟩⟩]
      5 ["c"] [[1]] "T" "open" "u" [] (fun _ => "fresh") none).1).mpr (Or.inl rfl),
   (index_failure_aborts_no_duplicates
      [⟨"old", [1], ⟨5, 0, "T", some "c", none, "open", "u", []⟩⟩]
      5 ["c"] [[1]] "T" "open" "u" [] (fun _ => "fresh") none).2.2 (by decide)⟩

/-! ## Workflow nodes (graph_nodes.py) and settings (config.py) -/

/-- `TemplateConfig` (config.py lines 35-40). -/
structure TemplateConfig where
  issue_template_file : String
  system_prompt : String
  keywords : List String
  deriving DecidableEq

/-- The fields of `AppSettings` (config.py lines 43-68) read by the
embedded nodes; the dict of templates is modelled as an association list. -/
structure AppSettings where
  rag : RAGConfig
  default_template : String
  templates : List (String × TemplateConfig)
  deriving DecidableEq

/-- `AppSettings.validate_template`: membership of the name in the
configured template dict. -/
def validate_template (settings : AppSettings) (template_name : String) : Bool :=
  (settings.templates.lookup template_name).isSome

/-- The fields of `GraphState` (graph_nodes.py lines 17-32) used by the
embedded nodes. -/
structure GraphState where
  issue_number : Int
  issue_title : String
  issue_body : String
  is_rag_enabled : Bool
  dry_run : Bool
  similar_issues : List SimilarIssue
  template_name : Option String
  improved_content : Option String
  deriving DecidableEq

/-- The node identifiers of the issue-improvement graph. -/
inductive NodeId where
  | inputValidation
  | ragSearch
  | templateDetection
  | contentGeneration
  | commentFormatting
  | postComment
  | indexCurrentIssue
  deriving DecidableEq

/-- The terminal `End` dicts returned by the issue-improvement graph. -/
inductive RunResult where
  | dryRun (issue_number : Int) (comment_length : Nat)
  | commentPosted (issue_number : Int) (comment_length : Nat)
  | indexed (issue_number : Int) (chunks_indexed : Nat)
  deriving DecidableEq

/-- What a node invocation returns: a successor node or a terminal result. -/
inductive NodeResult where
  | next (node : NodeId)
  | done (result : RunResult)
  deriving DecidableEq

/-- External side effects performed by a node. -/
inductive Effect where
  | postComment (issue_number : Int) (body : String)
  deriving DecidableEq

/-- The whitespace removal of `InputValidationNode.run`:
`combined.replace(" ", "").replace("\n", "").replace("\t", "")` — each
single-character replace with the empty string removes every occurrence
of that character. -/
def strip_whitespace (s : String) : String :=
  String.mk (s.data.filter (fun c => !(c == ' ' || c == '\n' || c == '\t')))

/-- `InputValidationNode.run` (graph_nodes.py lines 80-109): raises when
the combined title and body, with spaces, newlines and tabs removed, is
shorter than 10 characters; otherwise proceeds to `RAGSearchNode` when
RAG is enabled, else to `TemplateDetectionNode`. It performs no external
side effect. -/
def inputValidationRun (st : GraphState) :
    Except String (GraphState × NodeResult) × List Effect :=
  let combined := st.issue_title ++ st.issue_body
  let text_without_spaces := strip_whitespace combined
  if text_without_spaces.length < 10 then
    (.error "does not need improvement (too short)", [])
  else
    (.ok (st, .next (if st.is_rag_enabled then NodeId.ragSearch
      else NodeId.templateDetection)), [])

/-- `TemplateDetectionNode.run` (graph_nodes.py lines 183-195), given the
template name returned by the model: when the name is not a configured
template, it falls back to the configured default template; it always
proceeds to `ContentGenerationNode`. -/
def templateDetectionRun (settings : AppSettings) (st : GraphState)
    (llmTemplate : String) : GraphState × NodeResult :=
  let template_name := if validate_template settings llmTemplate then llmTemplate
    else settings.default_template
  ({ st with template_name := some template_name }, .next NodeId.contentGeneration)

/-- `PostCommentNode.run` (graph_nodes.py lines 314-357): in dry-run mode
it skips the post and terminates with the dry-run result (without
consulting `is_rag_enabled`); otherwise it posts the comment, then
transitions to `IndexCurrentIssueNode` when RAG is enabled and terminates
otherwise. -/
def postCommentRun (st : GraphState) : (GraphState × NodeResult) × List Effect :=
  let comment := st.improved_content.getD ""
  if st.dry_run then
    ((st, .done (.dryRun st.issue_number comment.length)), [])
  else if st.is_rag_enabled then
    ((st, .next NodeId.indexCurrentIssue), [.postComment st.issue_number comment])
  else
    ((st, .done (.commentPosted st.issue_number comment.length)),
      [.postComment st.issue_number comment])

/-- `IndexCurrentIssueNode.run` (graph_nodes.py lines 361-405): chunks the
current issue, embeds the chunks (`embedder` abstracts the batch embedding
call), upserts them into the store and terminates with the indexed
result. -/
def indexCurrentIssueRun (st : GraphState) (repository : String)
    (store : List StoredPoint) (embedder : List String → List (List ℚ))
    (freshId : Nat → String) : (GraphState × NodeResult) × List StoredPoint :=
  let url := if repository = "" then ""
    else "https://github.com/" ++ repository ++ "/issues/" ++ toString st.issue_number
  let chunks := create_issue_chunks st.issue_title st.issue_body
  let vectors := embedder chunks
  let store2 := upsert_issue_chunks store st.issue_number chunks vectors
    st.issue_title "open" url [] freshId
  ((st, .done (.indexed st.issue_number chunks.length)), store2)

/-- C7. The Validate step raises exactly when the combined title and body
with whitespace stripped is shorter than 10 characters; it performs no
external side effect; and when it does not raise, it proceeds to
RAGSearch when RAG is enabled and to ClassifyTemplate otherwise. -/
theorem input_validation_spec (st : GraphState) :
    (inputValidationRun st).2 = [] ∧
    ((inputValidationRun st).1.isOk = false ↔
      (strip_whitespace (st.issue_title ++ st.issue_body)).length < 10) ∧
    (¬ (strip_whitespace (st.issue_title ++ st.issue_body)).length < 10 →
      (inputValidationRun st).1 =
        .ok (st, .next (if st.is_rag_enabled then NodeId.ragSearch
          else NodeId.templateDetection))) := by
  by_cases h : (strip_whitespace (st.issue_title ++ st.issue_body)).length < 10
  · have h2 : inputValidationRun st =
        (.error "does not need improvement (too short)", []) := by
      unfold inputValidationRun
      rw [if_pos h]
    rw [h2]
    refine ⟨rfl, ?_, ?_⟩
    · simp [Except.isOk, Except.toBool, h]
    · intro hc
      exact absurd h hc
  · have h2 : inputValidationRun st =
        (.ok (st, .next (if st.is_rag_enabled then NodeId.ragSearch
          else NodeId.templateDetection)), []) := by
      unfold inputValidationRun
      rw [if_neg h]
    rw [h2]
    exact ⟨rfl, by simp [Except.isOk, Except.toBool, h], fun _ => rfl⟩

/-- C7 witness: the theorem applied at a concrete state with a long body,
whose hypotheses are discharged definitionally. -/
theorem input_validation_spec_witness :
    (inputValidationRun ⟨1, "", "this is long enough", false, false, [], none, none⟩).2 = [] ∧
    ((inputValidationRun ⟨1, "", "this is long enough", false, false, [], none, none⟩).1.isOk
        = false ↔
      (strip_whitespace ("" ++ "this is long enough")).length < 10) ∧
    (¬ (strip_whitespace ("" ++ "this is long enough")).length < 10 →
      (inputValidationRun ⟨1, "", "this is long enough", false, false, [], none, none⟩).1 =
        .ok (⟨1, "", "this is long enough", false, false, [], none, none⟩,
          .next (if (⟨1, "", "this is long enough", false, false, [], none,
            none⟩ : GraphState).is_rag_enabled then NodeId.ragSearch
            else NodeId.templateDetection))) :=
  input_validation_spec ⟨1, "", "this is long enough", false, false, [], none, none⟩

/-- C8. When the model response names a template that is not a key of the
configured template set, the ClassifyTemplate step sets the state's
template name to the configured default template and proceeds normally to
ContentGeneration — the classification miss never aborts the run. -/
theorem template_fallback_default (settings : AppSettings) (st : GraphState)
    (resp : String) (h : validate_template settings resp = false) :
    templateDetectionRun settings st resp =
      ({ st with template_name := some settings.default_template },
        .next NodeId.contentGeneration) := by
  unfold templateDetectionRun
  rw [h]
  simp

/-- C8 witness: a response naming an unknown template resolves to the
configured default. -/
theorem template_fallback_default_witness :
    templateDetectionRun
        ⟨⟨true, 256, 1, 3⟩, "feature_request",
          [("feature_request", ⟨"feature", "sp f", []⟩),
           ("bug_report", ⟨"bug", "sp b", []⟩)]⟩
        ⟨7, "T", "B", false, false, [], none, none⟩ "unknown_template" =
      ({ (⟨7, "T", "B", false, false, [], none, none⟩ : GraphState) with
          template_name := some "feature_request" },
        .next NodeId.contentGeneration) :=
  template_fallback_default
    ⟨⟨true, 256, 1, 3⟩, "feature_request",
      [("feature_request", ⟨"feature", "sp f", []⟩),
       ("bug_report", ⟨"bug", "sp b", []⟩)]⟩
    ⟨7, "T", "B", false, false, [], none, none⟩ "unknown_template" (by decide)

/-- C9 counterexample: with RAG enabled but dry-run on, the PostOrDryRun
step terminates the run directly (with the dry-run terminal result and no
post effect), so a RAG-enabled run can end without executing
IndexDocument — refuting the original claim. -/
theorem post_dry_run_terminates_cex :
    (⟨7, "T", "B", true, true, [], none, some "c"⟩ : GraphState).is_rag_enabled = true ∧
    (postCommentRun ⟨7, "T", "B", true, true, [], none, some "c"⟩).1.2 =
      .done (.dryRun 7 1) ∧
    (postCommentRun ⟨7, "T", "B", true, true, [], none, some "c"⟩).2 = [] := by
  exact ⟨rfl, rfl, rfl⟩

/-- C9 (amended). In runs with RAG enabled and dry-run off, PostOrDryRun
never terminates directly: it transitions to IndexCurrentIssue, which
indexes the current document and only then produces the terminal result. -/
theorem post_rag_transitions_to_index (st : GraphState)
    (h₁ : st.is_rag_enabled = true) (h₂ : st.dry_run = false) :
    (postCommentRun st).1.2 = .next NodeId.indexCurrentIssue ∧
    ∀ (repository : String) (store : List StoredPoint)
      (embedder : List String → List (List ℚ)) (freshId : Nat → String),
      (indexCurrentIssueRun st repository store embedder freshId).1.2 =
        .done (.indexed st.issue_number
          (create_issue_chunks st.issue_title st.issue_body).length) := by
  constructor
  · simp [postCommentRun, h₁, h₂]
  · intro repository store embedder freshId
    rfl

/-- C9 witness: the amended theorem applied at a concrete RAG-enabled,
non-dry-run state and concrete collaborators. -/
theorem post_rag_transitions_to_index_witness :
    (postCommentRun ⟨7, "T", "B", true, false, [], none, some "c"⟩).1.2 =
      .next NodeId.indexCurrentIssue ∧
    (indexCurrentIssueRun ⟨7, "T", "B", true, false, [], none, some "c"⟩ "o/r" []
        (fun cs => cs.map (fun _ => [1])) (fun _ => "fresh")).1.2 =
      .done (.indexed 7 (create_issue_chunks "T" "B").length) :=
  ⟨(post_rag_transitions_to_index
      ⟨7, "T", "B", true, false, [], none, some "c"⟩ rfl rfl).1,
   (post_rag_transitions_to_index
      ⟨7, "T", "B", true, false, [], none, some "c"⟩ rfl rfl).2 "o/r" []
      (fun cs => cs.map (fun _ => [1])) (fun _ => "fresh")⟩

end AiImproveIssue
